import Mathlib

/-!
Shallow embedding of `src/spira-xunit-reader.js` (Inflectra spira-addons-xunit-node).

The JavaScript program reads an xUnit XML report (already deserialized by
xml2js with options explicitArray:false, mergeAttrs:true), maps test cases to
Spira ids through a flat config file, and posts test runs / builds / documents
to a REST API.  This file models:

  * JS numbers as `JsNum` (a rational value or NaN; JS Infinity is outside the
    model: strings such as "Infinity" parse to NaN here, a divergence from JS
    that no definition below feeds into),
  * the JS builtins `parseInt` / `parseFloat` (decimal and hex for parseInt,
    decimal with optional fraction and exponent for parseFloat, longest valid
    prefix, NaN on no digits),
  * xml2js node values for failure/warning/error/skipped children (`XmlNode`:
    an empty element surfaces as the empty string, an element with attributes
    as an object holding an optional `message` attribute and optional text
    `_`),
  * the config loader `SpiraConfig.loadConfig`,
  * the per-case extractor `SpiraResultsParser.processTestCase` (with the file
    system abstracted as `String → Option (List ℕ)` of byte values 0..255),
  * the submitter `SpiraPostResults.sendResults` as a pure function from the
    configuration, the normalized results, the root testsuites metadata and an
    environment (clock samples and HTTP responses) to the ordered list of
    outgoing HTTP request bodies plus log lines.

Unmodeled faithfully and irrelevant to every theorem below: the exact ISO-8601
rendering of timestamps (timestamps are kept as rational millisecond values),
the text of HTTP-layer console messages, and Unicode corner cases of
`toLowerCase`/`trim` (modeled on ASCII, where they agree with JS).
-/

namespace SpiraXunit

/-- A JavaScript number: a rational value or NaN. -/
inductive JsNum where
  | num : ℚ → JsNum
  | nan : JsNum
deriving DecidableEq

/-- JS truthiness of a number: NaN and 0 are falsy. -/
def JsNum.truthy : JsNum → Bool
  | .num q => q != 0
  | .nan => false

/-- JS `>` comparison against 0 (`NaN > 0` is false). -/
def JsNum.gtZero : JsNum → Bool
  | .num q => 0 < q
  | .nan => false

/-- Decimal digit accumulation (the chars are assumed to satisfy isDigit). -/
def digitsToNat : List Char → ℕ → ℕ
  | [], acc => acc
  | c :: rest, acc => digitsToNat rest (acc * 10 + (c.toNat - 48))

/-- Hex digit test, as in the character class of JS parseInt radix 16. -/
def isHexDigit (c : Char) : Bool :=
  c.isDigit || ('a' ≤ c && c ≤ 'f') || ('A' ≤ c && c ≤ 'F')

/-- Hex digit value. -/
def hexDigitVal (c : Char) : ℕ :=
  if c.isDigit then c.toNat - 48
  else if 'a' ≤ c && c ≤ 'f' then c.toNat - 87
  else c.toNat - 55

/-- Hex accumulation. -/
def hexToNat : List Char → ℕ → ℕ
  | [], acc => acc
  | c :: rest, acc => hexToNat rest (acc * 16 + hexDigitVal c)

/-- Optional leading sign, returning the sign and the remaining characters. -/
def readSign : List Char → ℤ × List Char
  | '-' :: r => (-1, r)
  | '+' :: r => (1, r)
  | l => (1, l)

/-- JS `parseInt(s)` (no explicit radix): skip whitespace, optional sign,
`0x`/`0X` switches to hex, then the longest digit run; NaN when no digit. -/
def jsParseIntChars (l : List Char) : JsNum :=
  let l1 := l.dropWhile Char.isWhitespace
  let s := readSign l1
  match s.2 with
  | '0' :: 'x' :: r =>
      let ds := r.takeWhile isHexDigit
      if ds.isEmpty then .nan else .num (s.1 * (hexToNat ds 0 : ℤ))
  | '0' :: 'X' :: r =>
      let ds := r.takeWhile isHexDigit
      if ds.isEmpty then .nan else .num (s.1 * (hexToNat ds 0 : ℤ))
  | l2 =>
      let ds := l2.takeWhile Char.isDigit
      if ds.isEmpty then .nan else .num (s.1 * (digitsToNat ds 0 : ℤ))

/-- JS `parseInt` on strings. -/
def jsParseInt (s : String) : JsNum := jsParseIntChars s.toList

/-- Power `(10 : ℚ) ^ n`. -/
def pow10 (n : ℕ) : ℚ := (10 : ℚ) ^ n

/-- Power `10 ^ e` for a signed exponent. -/
def qpow10 (e : ℤ) : ℚ := if 0 ≤ e then pow10 e.toNat else 1 / pow10 (-e).toNat

/-- JS `parseFloat(s)`: skip whitespace, optional sign, digits with an optional
fraction, then an optional well-formed exponent; the longest valid prefix is
used and NaN is returned when no digit occurs before the exponent. -/
def jsParseFloatChars (l : List Char) : JsNum :=
  let l1 := l.dropWhile Char.isWhitespace
  let s := readSign l1
  let ip := s.2.takeWhile Char.isDigit
  let l3 := s.2.dropWhile Char.isDigit
  let fpRest : List Char × List Char :=
    match l3 with
    | '.' :: r => (r.takeWhile Char.isDigit, r.dropWhile Char.isDigit)
    | _ => ([], l3)
  if ip.isEmpty && fpRest.1.isEmpty then .nan
  else
    let mant : ℚ := (digitsToNat (ip ++ fpRest.1) 0 : ℚ) / pow10 fpRest.1.length
    let e : ℤ :=
      match fpRest.2 with
      | c :: r =>
          if c = 'e' || c = 'E' then
            let es := readSign r
            let ed := es.2.takeWhile Char.isDigit
            if ed.isEmpty then 0 else es.1 * (digitsToNat ed 0 : ℤ)
          else 0
      | [] => 0
    .num ((s.1 : ℚ) * mant * qpow10 e)

/-- JS `parseFloat` on strings. -/
def jsParseFloat (s : String) : JsNum := jsParseFloatChars s.toList

/-- Truthiness of an optional string field (JS: undefined and "" are falsy). -/
def strTruthy : Option String → Bool
  | none => false
  | some s => s != ""

/-! ### Character-list string primitives

The JS string methods `trim`, `split`, `toLowerCase`, `startsWith`,
`endsWith` and slicing are modeled directly on the character list of the
string (all separators used by the source are single characters).  These
replace the core `String` methods, whose position-based implementations do
not reduce in the kernel; on ASCII input — every string the source is
documented to handle — they agree with the JS methods. -/

/-- Drop whitespace at both ends (JS `trim`). -/
def trimList (l : List Char) : List Char :=
  ((l.dropWhile Char.isWhitespace).reverse.dropWhile Char.isWhitespace).reverse

/-- JS `s.trim()`. -/
def jsTrim (s : String) : String := String.mk (trimList s.toList)

/-- Split a character list on a separator character; never returns `[]`. -/
def splitChar (sep : Char) : List Char → List (List Char)
  | [] => [[]]
  | c :: rest =>
    match splitChar sep rest with
    | [] => [[c]]
    | h :: t => if c = sep then [] :: h :: t else (c :: h) :: t

/-- JS `s.split(sep)` for a one-character separator. -/
def jsSplit (sep : Char) (s : String) : List String :=
  (splitChar sep s.toList).map String.mk

/-- Join character lists with a separator character (JS `Array.join`). -/
def intercalateChar (sep : Char) : List (List Char) → List Char
  | [] => []
  | [x] => x
  | x :: y :: t => x ++ sep :: intercalateChar sep (y :: t)

/-- ASCII lower-casing of one character. -/
def lowerChar (c : Char) : Char :=
  if 'A' ≤ c && c ≤ 'Z' then Char.ofNat (c.toNat + 32) else c

/-- JS `s.toLowerCase()` (ASCII; the source's keys and names are ASCII). -/
def jsToLower (s : String) : String := String.mk (s.toList.map lowerChar)

/-- Strip a literal prefix from a character list. -/
def stripLit : List Char → List Char → Option (List Char)
  | [], l => some l
  | _ :: _, [] => none
  | p :: ps, c :: cs => if c = p then stripLit ps cs else none

/-- JS `s.startsWith(pre)`. -/
def strStartsWith (s pre : String) : Bool := (stripLit pre.toList s.toList).isSome

/-- JS `s.endsWith(suf)`. -/
def strEndsWith (s suf : String) : Bool :=
  (stripLit suf.toList.reverse s.toList.reverse).isSome

/-- JS template-literal coercion of a possibly-undefined string field. -/
def jsOptStr (o : Option String) : String := o.getD "undefined"

/-- A JS-object map field modeled as a function (assignment overwrites). -/
def mapSet (m : String → Option JsNum) (k : String) (v : JsNum) :
    String → Option JsNum :=
  fun x => if x = k then some v else m x

/-- Same for the side table of unrecognized credential keys. -/
def strMapSet (m : String → Option String) (k v : String) :
    String → Option String :=
  fun x => if x = k then some v else m x

/-- JS falsiness of `map[key]` when the map holds numbers: the lookup is falsy
when the key is absent (undefined), or maps to 0, or maps to NaN. -/
def lookupFalsy : Option JsNum → Bool
  | none => true
  | some v => !v.truthy

/-- The base64 alphabet. -/
def b64Alphabet : List Char :=
  "ABCDEFGHIJKLMNOPQRSTUVWXYZabcdefghijklmnopqrstuvwxyz0123456789+/".toList

/-- Character of a 6-bit value. -/
def b64c (n : ℕ) : Char := b64Alphabet.getD n '='

/-- Standard base64 of a byte list (values 0..255), as produced by Node's
`Buffer.toString('base64')`. -/
def base64Encode : List ℕ → String
  | [] => ""
  | [a] => String.mk [b64c (a / 4), b64c (a % 4 * 16), '=', '=']
  | [a, b] => String.mk [b64c (a / 4), b64c (a % 4 * 16 + b / 16), b64c (b % 16 * 4), '=']
  | a :: b :: c :: rest =>
      String.mk [b64c (a / 4), b64c (a % 4 * 16 + b / 16), b64c (b % 16 * 4 + c / 64),
        b64c (c % 64)] ++ base64Encode rest

/-- Node `path.dirname` for ordinary POSIX relative/absolute paths: everything
before the last slash, `"."` when there is no slash.  (Trailing-slash and
drive-letter corner cases of Node are out of scope; no input below has them.) -/
def dirname (p : String) : String :=
  let parts := splitChar '/' p.toList
  if parts.length ≤ 1 then "." else String.mk (intercalateChar '/' parts.dropLast)

/-- Node `path.join a b` for the ordinary case: `"."` as first component
disappears; otherwise the components are joined with a slash.  (Node's
`..`-normalization is out of scope; no input below needs it.) -/
def joinPath (a b : String) : String :=
  if a = "." || a = "" then b else a ++ "/" ++ b

/-! ## Config loader (`SpiraConfig`, src/spira-xunit-reader.js lines 10-60) -/

/-- The configuration object.  The constructor's initial field values are
`initialConfig` below.  The two lookup tables and the side table for
unrecognized credential keys (JS `this[trimmedKey] = value` on any other key)
are modeled as functions, matching JS object-property assignment.  (A
credential key that collides with a non-string field name, e.g. a literal
`test_case_ids` line, would in JS clobber that field with a string; such keys
land in `extras` here — no claim touches that corner.) -/
structure SpiraConfig where
  url : String
  username : String
  token : String
  project_id : JsNum
  release_id : JsNum
  test_set_id : JsNum
  create_build : Bool
  test_case_ids : String → Option JsNum
  test_set_ids : String → Option JsNum
  extras : String → Option String

/-- Field values set in the `SpiraConfig` constructor before `loadConfig`. -/
def initialConfig : SpiraConfig where
  url := ""
  username := ""
  token := ""
  project_id := .num (-1)
  release_id := .num (-1)
  test_set_id := .num (-1)
  create_build := false
  test_case_ids := fun _ => none
  test_set_ids := fun _ => none
  extras := fun _ => none

/-- Classification of one config line after `line.trim()`:
blank/comment lines are skipped, `[name]` opens a section, otherwise the line
splits on `=` into a key (falsy key or no `=` at all also skips the line) and
the re-joined, trimmed value. -/
inductive LineKind where
  | skip
  | sectionHeader (name : String)
  | kv (key value : String)
deriving DecidableEq

/-- Per-line parsing of `SpiraConfig.loadConfig` (lines 30-43). -/
def parseLine (raw : String) : LineKind :=
  let line := trimList raw.toList
  if line.isEmpty then .skip
  else if strStartsWith (String.mk line) "#" then .skip
  else if strStartsWith (String.mk line) "[" && strEndsWith (String.mk line) "]" then
    .sectionHeader (String.mk (line.drop 1).dropLast)
  else
    match splitChar '=' line with
    | [] => .skip
    | key :: valueParts =>
      if key.isEmpty then .skip
      else if valueParts.isEmpty then .skip
      else .kv (String.mk (trimList key))
        (String.mk (trimList (intercalateChar '=' valueParts)))

/-- Section dispatch of `SpiraConfig.loadConfig` (lines 45-57). -/
def applyKV (sec : String) (c : SpiraConfig) (k v : String) : SpiraConfig :=
  if sec = "credentials" then
    if k = "create_build" then { c with create_build := jsToLower v = "true" }
    else if k = "project_id" then { c with project_id := jsParseInt v }
    else if k = "release_id" then { c with release_id := jsParseInt v }
    else if k = "test_set_id" then { c with test_set_id := jsParseInt v }
    else if k = "url" then { c with url := v }
    else if k = "username" then { c with username := v }
    else if k = "token" then { c with token := v }
    else { c with extras := strMapSet c.extras k v }
  else if sec = "test_cases" then
    { c with test_case_ids := mapSet c.test_case_ids (jsToLower k) (jsParseInt v) }
  else if sec = "test_sets" then
    { c with test_set_ids := mapSet c.test_set_ids (jsToLower k) (jsParseInt v) }
  else c

/-- One step of the line loop; the state is (currentSection, config). -/
def configStep (st : String × SpiraConfig) (raw : String) : String × SpiraConfig :=
  match parseLine raw with
  | .skip => st
  | .sectionHeader n => (n, st.2)
  | .kv k v => (st.1, applyKV st.1 st.2 k v)

/-- The loop of `loadConfig` over the split lines. -/
def processLines (lines : List String) : SpiraConfig :=
  (lines.foldl configStep ("", initialConfig)).2

/-- The loader `SpiraConfig.loadConfig`: split the content on newlines and fold. -/
def loadConfig (content : String) : SpiraConfig :=
  processLines (jsSplit (Char.ofNat 10) content)

/-! ## Result extractor (`SpiraResultsParser`, lines 223-386)

A test case is the xml2js value of a `<testcase>` element under the options
explicitArray:false, mergeAttrs:true.  A child element such as `failure`
surfaces as:
  * the field being absent when the element is absent (`none`),
  * the empty string for an empty element `<failure/>` (`XmlNode.str ""`),
  * its text for a text-only element (`XmlNode.str s`),
  * an object with the merged `message` attribute and the text under `_`
    when it has attributes (`XmlNode.obj message text`).

`system-out`/`system-err` are modeled as their text (`Option String`); the
exotic case of those elements carrying attributes is out of scope.  A property
list `<properties><property …/></properties>` is modeled as
`Option (List Property)`; xml2js's single-element form corresponds to a
one-element list, and an empty `<properties/>` (falsy `''` in JS) to `none`. -/

/-- An xml2js child-node value: plain text or an object with an optional
`message` attribute and optional element text `_`. -/
inductive XmlNode where
  | str : String → XmlNode
  | obj : Option String → Option String → XmlNode
deriving DecidableEq

/-- JS truthiness of an optional node field: undefined and `''` are falsy,
objects and nonempty strings are truthy. -/
def xmlTruthy : Option XmlNode → Bool
  | none => false
  | some (.str s) => s != ""
  | some (.obj _ _) => true

/-- The node when the field is truthy, `none` otherwise. -/
def truthyNode : Option XmlNode → Option XmlNode
  | some (.str s) => if s = "" then none else some (.str s)
  | some (.obj m t) => some (.obj m t)
  | none => none

/-- The `message` attribute of a node (undefined on a plain string). -/
def XmlNode.messageAttr : XmlNode → Option String
  | .str _ => none
  | .obj m _ => m

/-- JS `node.message || fallback` (line 303 and friends). -/
def nodeMessageOr (n : XmlNode) (fallback : String) : String :=
  match n.messageAttr with
  | some m => if m = "" then fallback else m
  | none => fallback

/-- The `details` value: in JS it stays a string, or becomes the raw node
object when the node has attributes but no text (`failure._ || failure`,
line 304).  Appending to an object value coerces it via toString. -/
inductive DetVal where
  | s : String → DetVal
  | node : XmlNode → DetVal
deriving DecidableEq

/-- JS string coercion used by `details += …` template appends. -/
def DetVal.render : DetVal → String
  | .s v => v
  | .node _ => "[object Object]"

/-- JS `details += txt`. -/
def DetVal.append (d : DetVal) (txt : String) : DetVal := .s (d.render ++ txt)

/-- JS truthiness of a details value. -/
def DetVal.truthy : DetVal → Bool
  | .s v => v != ""
  | .node _ => true

/-- JS `node._ || node` (line 304): the text when truthy, else the node itself. -/
def nodeDetails (n : XmlNode) : DetVal :=
  match n with
  | .str s => .s s
  | .obj m t =>
    match t with
    | some txt => if txt = "" then .node (.obj m t) else .s txt
    | none => .node (.obj m t)

/-- Line 319: the skipped node text, else the node, else the empty string. -/
def skippedDetails (n : XmlNode) : DetVal :=
  let d := nodeDetails n
  if d.truthy then d else .s ""

/-- A `<property>` node: `name` attribute (assumed present — the source
dereferences it unconditionally), optional `value` attribute, optional text. -/
structure Property where
  name : String
  value : Option String
  text : Option String
deriving DecidableEq

/-- JS `a || fallback` on an optional string. -/
def orElseStr (a : Option String) (fallback : String) : String :=
  match a with
  | some v => if v = "" then fallback else v
  | none => fallback

/-- Line 350: the value attribute, else the text, else the empty string. -/
def propValue (p : Property) : String := orElseStr p.value (orElseStr p.text "")

/-- The parsed `<testcase>` value. -/
structure TestCase where
  name : Option String
  classname : Option String
  time : Option String
  assertions : Option String
  failure : Option XmlNode
  warning : Option XmlNode
  error : Option XmlNode
  skipped : Option XmlNode
  system_out : Option String
  system_err : Option String
  properties : Option (List Property)
deriving DecidableEq

/-- A file attachment, base64-encoded. -/
structure Attachment where
  filename : String
  binary_data : String
deriving DecidableEq

/-- A URL link. -/
structure Link where
  url : String
deriving DecidableEq

/-- One entry of `this.testResults` (lines 364-375). -/
structure TestResult where
  test_case_id : JsNum
  name : String
  execution_status_id : Int
  stack_trace : DetVal
  message : String
  duration_seconds : JsNum
  assert_count : JsNum
  test_set_id : JsNum
  attachments : List Attachment
  links : List Link
deriving DecidableEq

/-- The status block of `processTestCase` (lines 297-322): the if/else-if
chain on the truthiness of the four child nodes, collapsing the four mutable
locals into one record. -/
structure StatusInfo where
  statusId : Int
  message : String
  details : DetVal
  assertCount : JsNum
deriving DecidableEq

/-- Lines 297-322 of the source. -/
def statusInfo (tc : TestCase) : StatusInfo :=
  match truthyNode tc.failure with
  | some n =>
    { statusId := 1, message := nodeMessageOr n "Test Failed",
      details := nodeDetails n, assertCount := .num 1 }
  | none =>
  match truthyNode tc.warning with
  | some n =>
    { statusId := 6, message := nodeMessageOr n "Test Warning",
      details := nodeDetails n, assertCount := .num 1 }
  | none =>
  match truthyNode tc.error with
  | some n =>
    { statusId := 5, message := nodeMessageOr n "Test Error",
      details := nodeDetails n, assertCount := .num 1 }
  | none =>
  match truthyNode tc.skipped with
  | some n =>
    { statusId := 4, message := nodeMessageOr n "Test Skipped",
      details := skippedDetails n, assertCount := .num 1 }
  | none =>
    { statusId := 2, message := "Success",
      details := .s "Nothing Reported\n", assertCount := .num 0 }

/-- The file system seen by `fs.readFileSync`: path to byte values (0..255),
`none` when the read throws. -/
def FileSys : Type := String → Option (List ℕ)

/-- The reader `SpiraResultsParser.readAttachmentFile` (lines 230-244): read the file
relative to the report file's directory and base64-encode it; `none` on a
read error. -/
def readAttachmentFile (fs : FileSys) (reportFile filepath : String) :
    Option Attachment :=
  match fs (joinPath (dirname reportFile) filepath) with
  | some bytes => some { filename := filepath, binary_data := base64Encode bytes }
  | none => none

/-- The log line of `readAttachmentFile`'s catch branch, eliding the
runtime-dependent `due to error '…'` fragment of the template. -/
def readFailLog (filepath : String) : String :=
  "Unable to read image file \x27" ++ filepath ++ "\x27, so skipping attachment.\n"

/-- Character class of the attachment-marker regex `[a-zA-Z0-9_/\\.]`. -/
def attachChar (c : Char) : Bool :=
  c.isAlphanum || c = '_' || c = '/' || c = '\\' || c = '.'

/-- Try the regex `\[\[ATTACHMENT\|([a-zA-Z0-9_/\\.]+)\]\]` at the head of the
input; on a match return the captured path and the input after the match.
(The character class excludes `]`, so the greedy capture never backtracks.) -/
def tryAttachMatch (l : List Char) : Option (String × List Char) :=
  match stripLit "[[ATTACHMENT|".toList l with
  | none => none
  | some rest =>
    let path := rest.takeWhile attachChar
    let rest2 := rest.dropWhile attachChar
    if path.isEmpty then none
    else
      match rest2 with
      | ']' :: ']' :: rest3 => some (String.mk path, rest3)
      | _ => none

/-- Global left-to-right scan of `matchAll` with the attachment regex; each
match resumes after its end, a failed attempt resumes one character later.
The fuel argument bounds the recursion by the input length (every step
consumes at least one character). -/
def scanAttachAux : ℕ → List Char → List String
  | 0, _ => []
  | _ + 1, [] => []
  | fuel + 1, c :: rest =>
    match tryAttachMatch (c :: rest) with
    | some pr => pr.1 :: scanAttachAux fuel pr.2
    | none => scanAttachAux fuel rest

/-- All `[[ATTACHMENT|path]]` captures of a text, in order (lines 378-385). -/
def scanAttachments (s : String) : List String :=
  scanAttachAux s.toList.length s.toList

/-- The scan loop of `extractAttachments` (lines 378-385): read every captured path, keeping
successful reads in order and logging the failures. -/
def readAll (fs : FileSys) (reportFile : String) :
    List String → List Attachment × List String
  | [] => ([], [])
  | p :: rest =>
    let r := readAll fs reportFile rest
    match readAttachmentFile fs reportFile p with
    | some a => (a :: r.1, r.2)
    | none => (r.1, readFailLog p :: r.2)

/-- Handling of one optional system-out/err stream (lines 331-341): when
truthy, append `label + text + "\n"` to the details and scan the text for
attachment markers.  Returns (new details, attachments, logs). -/
def addStream (fs : FileSys) (reportFile label : String) (txt : Option String)
    (d : DetVal) : DetVal × List Attachment × List String :=
  match txt with
  | some s =>
    if s = "" then (d, [], [])
    else
      let r := readAll fs reportFile (scanAttachments s)
      (d.append (label ++ s ++ "\n"), r.1, r.2)
  | none => (d, [], [])

/-- Accumulated output of the properties loop. -/
structure ExtractAcc where
  details : DetVal
  attachments : List Attachment
  links : List Link
  logs : List String
deriving DecidableEq

/-- The properties loop (lines 343-362): append a `- name=value` line per
property, and dispatch properties named `attachment*` to links (value starts
with "http") or file attachments (unreadable files are logged and dropped). -/
def processProps (fs : FileSys) (reportFile : String) :
    List Property → DetVal → ExtractAcc
  | [], d => { details := d, attachments := [], links := [], logs := [] }
  | p :: rest, d =>
    let pv := propValue p
    let acc := processProps fs reportFile rest
      (d.append ("- " ++ p.name ++ "=" ++ pv ++ "\n"))
    if strStartsWith p.name "attachment" then
      if strStartsWith pv "http" then { acc with links := { url := pv } :: acc.links }
      else
        match readAttachmentFile fs reportFile pv with
        | some a => { acc with attachments := a :: acc.attachments }
        | none => { acc with logs := readFailLog pv :: acc.logs }
    else acc

/-- The skip log of a case with no mapped id (line 291). -/
def skipLog (fullName : String) : String :=
  "Unable to find Spira id tag for test case \x27" ++ fullName ++
    "\x27, so skipping this test case."

/-- The extractor `SpiraResultsParser.processTestCase` (lines 282-376): returns the pushed
test-result entry (`none` when the case is skipped) and the console log lines
emitted while processing it. -/
def processTestCase (fs : FileSys) (cfg : SpiraConfig) (tc : TestCase)
    (suiteName reportFile : String) : Option TestResult × List String :=
  let elapsedTime :=
    match tc.time with
    | some t => if t = "" then JsNum.num 0 else jsParseFloat t
    | none => JsNum.num 0
  let fullName := jsOptStr tc.classname ++ "." ++ jsOptStr tc.name
  let tcIdOpt := cfg.test_case_ids (jsToLower fullName)
  if lookupFalsy tcIdOpt then
    (none, [skipLog fullName])
  else
    let testCaseId := tcIdOpt.getD JsNum.nan
    let tsOpt := cfg.test_set_ids (jsToLower suiteName)
    let testSetId := if lookupFalsy tsOpt then JsNum.num (-1) else tsOpt.getD JsNum.nan
    let si := statusInfo tc
    let assertCount :=
      match tc.assertions with
      | some a => if a = "" then si.assertCount else jsParseInt a
      | none => si.assertCount
    let so := addStream fs reportFile "System Out: " tc.system_out si.details
    let se := addStream fs reportFile "System Err: " tc.system_err so.1
    let pr :=
      match tc.properties with
      | some props => processProps fs reportFile props se.1
      | none => { details := se.1, attachments := [], links := [], logs := [] }
    (some {
      test_case_id := testCaseId
      name := fullName
      execution_status_id := si.statusId
      stack_trace := pr.details
      message := si.message
      duration_seconds := elapsedTime
      assert_count := assertCount
      test_set_id := testSetId
      attachments := so.2.1 ++ se.2.1 ++ pr.attachments
      links := pr.links }, so.2.2 ++ se.2.2 ++ pr.logs)

/-! ## Result submitter (`SpiraPostResults`, `SpiraTestRun`, `SpiraBuild`,
`SpiraDocument`; lines 62-221 and 388-513)

The HTTP layer is abstracted into an `Env`: the server's response to the
create-build call, the per-record clock samples, and the server's response to
each create-test-run call (`none` models an HTTP error, on which the source's
`post` returns −1 for test runs and null for builds).  `sendResults` returns
the ordered list of outgoing request bodies plus the modeled log lines.
The ISO rendering of timestamps is not modeled: request bodies carry the
rational millisecond values.  A record whose duration is NaN makes
`startTime.toISOString()` throw inside `SpiraTestRun.post` (Invalid Date);
the throw is caught by `sendResult`'s catch, so such a record produces no
HTTP call and counts as unsuccessful — the model reproduces this. -/

/-- The constant `RUNNER_NAME` (line 8). -/
def RUNNER_NAME : String := "xUnit (Node.js)"

/-- The root `testsuites` attributes used for build metadata (lines 415-420). -/
structure SuitesRoot where
  name : Option String
  tests : Option String
  failures : Option String
  errors : Option String
  skipped : Option String
  assertions : Option String
deriving DecidableEq

/-- The create-build request body (lines 128-134). -/
structure BuildBody where
  projectId : JsNum
  buildStatusId : Int
  releaseId : JsNum
  name : String
  description : String
deriving DecidableEq

/-- The create-test-run request body (lines 178-200); `releaseId`, `buildId`
and `testSetId` are `none` when the corresponding field is left out of the
JSON body, and `buildId = some none` models `BuildId: null`. -/
structure TestRunBody where
  testRunFormatId : Int
  startMs : ℚ
  endMs : ℚ
  runnerName : String
  runnerTestName : String
  runnerMessage : String
  runnerStackTrace : DetVal
  runnerAssertCount : JsNum
  testCaseId : JsNum
  executionStatusId : Int
  releaseId : Option JsNum
  buildId : Option (Option ℤ)
  testSetId : Option JsNum
deriving DecidableEq

/-- The create-document request body (lines 79-92). -/
structure DocBody where
  projectId : JsNum
  attachmentTypeId : Int
  filenameOrUrl : String
  currentVersion : String
  artifactId : ℤ
  artifactTypeId : Int
  binaryData : Option String
deriving DecidableEq

/-- One outgoing HTTP request. -/
inductive HttpCall where
  | createBuild (body : BuildBody)
  | createTestRun (body : TestRunBody)
  | createDocFile (body : DocBody)
  | createDocUrl (body : DocBody)
deriving DecidableEq

/-- The external world: build-creation response (`none` = HTTP failure, JS
null), a clock sample per record index, and the test-run response per record
index (`none` = HTTP failure, JS −1). -/
structure Env where
  buildNowIso : String
  buildResp : Option ℤ
  recordNowMs : ℕ → ℚ
  runResp : ℕ → Option ℤ

/-- The `SpiraTestRun` object (lines 157-172); `buildId` is a JS value that is
a number (`some`) or null (`none`). -/
structure SpiraTestRun where
  projectId : JsNum
  testCaseId : JsNum
  testName : String
  stackTrace : DetVal
  statusId : Int
  startMs : ℚ
  endMs : ℚ
  message : String
  releaseId : JsNum
  testSetId : JsNum
  assertCount : JsNum
  buildId : Option ℤ
deriving DecidableEq

/-- JS `x !== -1` for a number-or-null value (`null !== -1` is true). -/
def neNegOne : Option ℤ → Bool
  | some n => n != -1
  | none => true

/-- The body constructed by `SpiraTestRun.post` (lines 178-200): `ReleaseId`
only when `releaseId !== -1`, `BuildId` additionally only when
`buildId !== -1`, `TestSetId` only when `testSetId !== -1`. -/
def SpiraTestRun.body (tr : SpiraTestRun) : TestRunBody where
  testRunFormatId := 1
  startMs := tr.startMs
  endMs := tr.endMs
  runnerName := RUNNER_NAME
  runnerTestName := tr.testName
  runnerMessage := tr.message
  runnerStackTrace := tr.stackTrace
  runnerAssertCount := tr.assertCount
  testCaseId := tr.testCaseId
  executionStatusId := tr.statusId
  releaseId := if tr.releaseId = JsNum.num (-1) then none else some tr.releaseId
  buildId :=
    if tr.releaseId = JsNum.num (-1) then none
    else if neNegOne tr.buildId then some tr.buildId else none
  testSetId := if tr.testSetId = JsNum.num (-1) then none else some tr.testSetId

/-- The document call `SpiraDocument.post` (lines 71-112): the file endpoint and the BinaryData
field are used only when the type is 1 (file) and the binary data is truthy;
otherwise the url endpoint. -/
def mkDocCall (projectId : JsNum) (attachmentTypeId : Int) (testRunId : ℤ)
    (filenameOrUrl versionName : String) (binaryData : Option String) : HttpCall :=
  let hasBin := attachmentTypeId == 1 && strTruthy binaryData
  let body : DocBody :=
    { projectId := projectId
      attachmentTypeId := attachmentTypeId
      filenameOrUrl := filenameOrUrl
      currentVersion := versionName
      artifactId := testRunId
      artifactTypeId := 5
      binaryData := if hasBin then binaryData else none }
  if hasBin then .createDocFile body else .createDocUrl body

/-- The build-status loop with break (lines 403-409). -/
def computeBuildStatus : List TestResult → Int
  | [] => 2
  | r :: rest => if r.execution_status_id = 1 then 1 else computeBuildStatus rest

/-- Build name (lines 412-415). -/
def buildName (suites : SuitesRoot) (nowIso : String) : String :=
  orElseStr suites.name RUNNER_NAME ++ " Build " ++ nowIso

/-- One optional line of the build description. -/
def descSeg (label : String) (v : Option String) : String :=
  match v with
  | some s => if s = "" then "" else label ++ s ++ "\n"
  | none => ""

/-- Build description (lines 416-420). -/
def buildDescription (suites : SuitesRoot) : String :=
  descSeg "# Tests: " suites.tests ++ descSeg "# Failures: " suites.failures ++
    descSeg "# Errors: " suites.errors ++ descSeg "# Skipped: " suites.skipped ++
    descSeg "# Assertions: " suites.assertions

/-- The catch log of `sendResult`, eliding the runtime error message. -/
def runCatchLog (name : String) : String :=
  "Unable to report test case \x27" ++ name ++ "\x27 to Spira due to an error.\n"

/-- The per-record step `SpiraPostResults.sendResult` (lines 448-512): choose the test-set id,
build the test-run body, and on a successful run creation (returned id ≥ 1)
emit one document call per attachment and per link.  Returns the calls, the
isError flag, and log lines. -/
def sendResult (cfg : SpiraConfig) (r : TestResult) (nowMs : ℚ)
    (runResp : Option ℤ) (buildId : Option ℤ) : List HttpCall × Bool × List String :=
  let testSetId := if r.test_set_id.gtZero then r.test_set_id else cfg.test_set_id
  match r.duration_seconds with
  | .nan => ([], true, [runCatchLog r.name])
  | .num q =>
    let tr : SpiraTestRun :=
      { projectId := cfg.project_id
        testCaseId := r.test_case_id
        testName := r.name
        stackTrace := r.stack_trace
        statusId := r.execution_status_id
        startMs := nowMs - q * 1000
        endMs := nowMs
        message := r.message
        releaseId := cfg.release_id
        testSetId := testSetId
        assertCount := r.assert_count
        buildId := buildId }
    let testRunId := runResp.getD (-1)
    let isError := testRunId < 1
    let docCalls :=
      if isError then []
      else
        r.attachments.map (fun a =>
          mkDocCall cfg.project_id 1 testRunId a.filename "1.0" (some a.binary_data)) ++
        r.links.map (fun l => mkDocCall cfg.project_id 2 testRunId l.url "1.0" none)
    (HttpCall.createTestRun tr.body :: docCalls, isError, [])

/-- The per-record loop of `sendResults` (lines 434-441), indexed so each
record gets its own clock sample and test-run response; returns calls, the
success count, and logs. -/
def sendLoop (cfg : SpiraConfig) (env : Env) (buildId : Option ℤ) :
    ℕ → List TestResult → List HttpCall × ℕ × List String
  | _, [] => ([], 0, [])
  | i, r :: rest =>
    let one := sendResult cfg r (env.recordNowMs i) (env.runResp i) buildId
    let acc := sendLoop cfg env buildId (i + 1) rest
    (one.1 ++ acc.1, (if one.2.1 then 0 else 1) + acc.2.1, one.2.2 ++ acc.2.2)

/-- Log emitted when the configured URL is empty (line 395). -/
def urlEmptyLog : String :=
  "Unable to report test results back to Spira since URL in configuration is empty"

/-- Log before issuing the create-build call (line 401). -/
def creatingLog (url : String) : String :=
  "Creating new build in Spira at URL \x27" ++ url ++ "\x27."

/-- Log before the per-record loop (line 432). -/
def sendingLog (url : String) : String :=
  "Sending test results to Spira at URL \x27" ++ url ++ "\x27."

/-- Final success-count log (line 442). -/
def successLog (n : ℕ) : String :=
  "Successfully reported " ++ toString n ++ " test cases to Spira.\n"

/-- The submitter `SpiraPostResults.sendResults` (lines 393-446): nothing happens on an
empty URL; otherwise optionally create a build (threading the returned id, or
null on failure, into every record) and then send each record in order. -/
def sendResults (cfg : SpiraConfig) (testResults : List TestResult)
    (suites : SuitesRoot) (env : Env) : List HttpCall × List String :=
  if cfg.url = "" then ([], [urlEmptyLog])
  else
    let bres : List HttpCall × Option ℤ × List String :=
      if cfg.create_build then
        ([HttpCall.createBuild
            { projectId := cfg.project_id
              buildStatusId := computeBuildStatus testResults
              releaseId := cfg.release_id
              name := buildName suites env.buildNowIso
              description := buildDescription suites }],
          env.buildResp, [creatingLog cfg.url])
      else ([], some (-1), [])
    let lr := sendLoop cfg env bres.2.1 0 testResults
    (bres.1 ++ lr.1, bres.2.2 ++ [sendingLog cfg.url] ++ lr.2.2 ++ [successLog lr.2.1])

/-! ## Shared concrete fixtures used by witnesses and counterexamples -/

/-- A file system with one readable file under the report directory. -/
def fsFix : FileSys := fun p => if p = "dir/out/log.txt" then some [104, 105] else none

/-- A root testsuites node with no metadata attributes. -/
def suitesFix : SuitesRoot :=
  { name := none, tests := none, failures := none, errors := none,
    skipped := none, assertions := none }

/-- A test case with only `name` and `classname` set. -/
def tcFixBase : TestCase :=
  { name := some "t", classname := some "c", time := none, assertions := none,
    failure := none, warning := none, error := none, skipped := none,
    system_out := none, system_err := none, properties := none }

/-- A config mapping `c.t` to test-case id 5. -/
def cfgFix : SpiraConfig :=
  { initialConfig with test_case_ids := mapSet (fun _ => none) "c.t" (JsNum.num 5) }

/-- A config mapping `c.t` to the falsy test-case id 0. -/
def cfgFixZero : SpiraConfig :=
  { initialConfig with test_case_ids := mapSet (fun _ => none) "c.t" (JsNum.num 0) }

/-- A normalized passing result for `c.t`. -/
def rFix : TestResult :=
  { test_case_id := JsNum.num 5, name := "c.t", execution_status_id := 2,
    stack_trace := .s "Nothing Reported\n", message := "Success",
    duration_seconds := JsNum.num 0, assert_count := JsNum.num 0,
    test_set_id := JsNum.num (-1), attachments := [], links := [] }

/-- The same result failed. -/
def rFailFix : TestResult := { rFix with execution_status_id := 1 }

/-- An environment whose create-build call fails (HTTP error ⇒ JS null) and
whose test-run calls succeed with id 7. -/
def envFix : Env :=
  { buildNowIso := "T0", buildResp := none, recordNowMs := fun _ => 1000,
    runResp := fun _ => some 7 }

/-- A submitting config: URL set, build creation on, release 5. -/
def cfgFixB : SpiraConfig :=
  { cfgFix with
      url := "http://spira", create_build := true,
      release_id := JsNum.num 5, project_id := JsNum.num 1 }

/-! ## C8 — empty URL means no HTTP calls at all -/

/-- C8: if the configured base URL is the empty string, `sendResults` logs
that results cannot be reported and returns with an empty call trace — no
build creation, no test-run creation, no document upload — for every input
results list, root metadata and environment. -/
theorem empty_url_no_calls (cfg : SpiraConfig) (results : List TestResult)
    (suites : SuitesRoot) (env : Env) (h : cfg.url = "") :
    sendResults cfg results suites env = ([], [urlEmptyLog]) := by
  simp [sendResults, h]

/-- Witness for C8 at a concrete configuration (the initial config has an
empty URL) and a nonempty results list. -/
theorem empty_url_no_calls_witness :
    initialConfig.url = "" ∧
      sendResults initialConfig [rFix, rFailFix] suitesFix envFix = ([], [urlEmptyLog]) :=
  ⟨rfl, empty_url_no_calls initialConfig [rFix, rFailFix] suitesFix envFix rfl⟩

/-! ## C9 — duplicate keys in a section: last write wins -/

/-- Overwriting the same key twice in a number map keeps the later value. -/
theorem mapSet_overwrite (m : String → Option JsNum) (k : String) (v1 v2 : JsNum) :
    mapSet (mapSet m k v1) k v2 = mapSet m k v2 := by
  funext x
  simp only [mapSet]
  split_ifs <;> rfl

/-- Overwriting the same key twice in a string map keeps the later value. -/
theorem strMapSet_overwrite (m : String → Option String) (k v1 v2 : String) :
    strMapSet (strMapSet m k v1) k v2 = strMapSet m k v2 := by
  funext x
  simp only [strMapSet]
  split_ifs <;> rfl

/-- Applying two values for the same key in the same section leaves exactly
the state of applying the later one, whatever the section is. -/
theorem applyKV_overwrite (sec : String) (c : SpiraConfig) (k v1 v2 : String) :
    applyKV sec (applyKV sec c k v1) k v2 = applyKV sec c k v2 := by
  by_cases hs1 : sec = "credentials"
  · by_cases h1 : k = "create_build"
    · simp [applyKV, hs1, h1]
    · by_cases h2 : k = "project_id"
      · simp [applyKV, hs1, h1, h2]
      · by_cases h3 : k = "release_id"
        · simp [applyKV, hs1, h1, h2, h3]
        · by_cases h4 : k = "test_set_id"
          · simp [applyKV, hs1, h1, h2, h3, h4]
          · by_cases h5 : k = "url"
            · simp [applyKV, hs1, h1, h2, h3, h4, h5]
            · by_cases h6 : k = "username"
              · simp [applyKV, hs1, h1, h2, h3, h4, h5, h6]
              · by_cases h7 : k = "token"
                · simp [applyKV, hs1, h1, h2, h3, h4, h5, h6, h7]
                · simp [applyKV, hs1, h1, h2, h3, h4, h5, h6, h7, strMapSet_overwrite]
  · by_cases hs2 : sec = "test_cases"
    · simp [applyKV, hs1, hs2, mapSet_overwrite]
    · by_cases hs3 : sec = "test_sets"
      · simp [applyKV, hs1, hs2, hs3, mapSet_overwrite]
      · simp [applyKV, hs1, hs2, hs3]

/-- C9: for every config file, when the same key appears twice in the same
section, the loaded value is the one from the later line (stated for the two
occurrences adjacent after an arbitrary prefix, which fixes their common
section): the loaded configuration is identical to the one obtained without
the earlier line.  This covers the credentials fields as well as the
test-case and test-set lookup tables, since `applyKV` dispatches on the
section. -/
theorem config_last_write_wins (pre : List String) (l1 l2 k v1 v2 : String)
    (h1 : parseLine l1 = LineKind.kv k v1) (h2 : parseLine l2 = LineKind.kv k v2) :
    processLines (pre ++ [l1, l2]) = processLines (pre ++ [l2]) := by
  unfold processLines
  rw [List.foldl_append, List.foldl_append]
  rcases List.foldl configStep ("", initialConfig) pre with ⟨sec, c⟩
  simp only [List.foldl_cons, List.foldl_nil, configStep, h1, h2]
  exact applyKV_overwrite sec c k v1 v2

/-- Witness for C9: a duplicate `test_cases` key and a duplicate credentials
key, both resolving to the later line. -/
theorem config_last_write_wins_witness :
    parseLine "a=1" = LineKind.kv "a" "1" ∧
      processLines ["[test_cases]", "a=1", "a=2"] = processLines ["[test_cases]", "a=2"] ∧
      processLines ["[credentials]", "url=http://x", "url=http://y"] =
        processLines ["[credentials]", "url=http://y"] :=
  ⟨by decide,
    config_last_write_wins ["[test_cases]"] "a=1" "a=2" "a" "1" "2"
      (by decide) (by decide),
    config_last_write_wins ["[credentials]"] "url=http://x" "url=http://y"
      "url" "http://x" "http://y" (by decide) (by decide)⟩

/-! ## C7 — aggregate build status -/

/-- The for/break loop of lines 403-409 computes exactly "1 if some result has
execution status 1, else 2". -/
theorem computeBuildStatus_spec (results : List TestResult) :
    computeBuildStatus results =
      if ∃ r ∈ results, r.execution_status_id = 1 then 1 else 2 := by
  induction results with
  | nil => simp [computeBuildStatus]
  | cons r rest ih =>
    by_cases h : r.execution_status_id = 1
    · simp [computeBuildStatus, h]
    · simp [computeBuildStatus, h, ih]

/-- C7: when build creation is enabled (and the URL is nonempty, so the
submitter runs at all), the first call of the trace is the create-build call,
and its status is 1 (Failed) iff at least one normalized result has execution
status 1 (Fail), else 2 (Passed). -/
theorem buildStatus_aggregate (cfg : SpiraConfig) (results : List TestResult)
    (suites : SuitesRoot) (env : Env) (hurl : cfg.url ≠ "")
    (hcb : cfg.create_build = true) :
    (sendResults cfg results suites env).1.head? =
      some (HttpCall.createBuild
        { projectId := cfg.project_id
          buildStatusId := if ∃ r ∈ results, r.execution_status_id = 1 then 1 else 2
          releaseId := cfg.release_id
          name := buildName suites env.buildNowIso
          description := buildDescription suites }) := by
  simp [sendResults, hurl, hcb, computeBuildStatus_spec]

/-- Witness for C7: one failed result makes the build status 1. -/
theorem buildStatus_aggregate_witness :
    cfgFixB.url ≠ "" ∧ cfgFixB.create_build = true ∧
      (sendResults cfgFixB [rFix, rFailFix] suitesFix envFix).1.head? =
        some (HttpCall.createBuild
          { projectId := cfgFixB.project_id
            buildStatusId :=
              if ∃ r ∈ [rFix, rFailFix], r.execution_status_id = 1 then 1 else 2
            releaseId := cfgFixB.release_id
            name := buildName suitesFix envFix.buildNowIso
            description := buildDescription suitesFix }) :=
  ⟨by decide, rfl,
    buildStatus_aggregate cfgFixB [rFix, rFailFix] suitesFix envFix (by decide) rfl⟩

/-! ## C2 — missing (or zero) test-case id: case is logged and skipped -/

/-- C2: the test-case id is looked up under the lower-cased qualified name
`classname.name`; when the lookup yields no value — including a mapped value
of 0, which is falsy — `processTestCase` emits the skip log line and returns
no entry, so the case contributes nothing to the submitted results list. -/
theorem missing_testCaseId_skips (fs : FileSys) (cfg : SpiraConfig)
    (tc : TestCase) (suiteName reportFile : String)
    (h : cfg.test_case_ids (jsToLower (jsOptStr tc.classname ++ "." ++ jsOptStr tc.name)) = none ∨
         cfg.test_case_ids (jsToLower (jsOptStr tc.classname ++ "." ++ jsOptStr tc.name)) =
           some (JsNum.num 0)) :
    processTestCase fs cfg tc suiteName reportFile =
      (none, [skipLog (jsOptStr tc.classname ++ "." ++ jsOptStr tc.name)]) := by
  unfold processTestCase
  rcases h with h | h <;> simp [h, lookupFalsy, JsNum.truthy]

/-- Witness for C2: `c.t` is mapped to id 0, a falsy value, so the case is
dropped with the log line. -/
theorem missing_testCaseId_skips_witness :
    cfgFixZero.test_case_ids "c.t" = some (JsNum.num 0) ∧
      processTestCase fsFix cfgFixZero tcFixBase "s" "dir/report.xml" =
        (none, [skipLog (jsOptStr tcFixBase.classname ++ "." ++ jsOptStr tcFixBase.name)]) :=
  ⟨by decide,
    missing_testCaseId_skips fsFix cfgFixZero tcFixBase "s" "dir/report.xml"
      (Or.inr (by decide))⟩

section RatEval

/- Batteries marks the `Rat` arithmetic operations `@[irreducible]`, which
blocks `decide` on concrete rational values; restore reducibility locally so
the concrete witnesses and counterexamples below evaluate. -/
attribute [local semireducible] Rat.mul Rat.add Rat.sub Rat.inv Rat.ofScientific

/-! ## The status block: truthiness-based resolution (C1, C6, C4) -/

/-- The helper `truthyNode` is `some` exactly on truthy fields. -/
theorem truthyNode_isSome (o : Option XmlNode) :
    (truthyNode o).isSome = xmlTruthy o := by
  rcases o with _ | n
  · rfl
  · rcases n with s | ⟨m, t⟩
    · by_cases h : s = "" <;> simp [truthyNode, xmlTruthy, h]
    · rfl

/-- The status block resolves the four child nodes in the fixed order
failure → warning → error → skipped by truthiness, mapping them to
1/6/5/4 with default 2, and sets the default assert count to 1 exactly when
some child is truthy. -/
theorem statusInfo_spec (tc : TestCase) :
    (statusInfo tc).statusId =
      (if xmlTruthy tc.failure then 1 else if xmlTruthy tc.warning then 6
       else if xmlTruthy tc.error then 5 else if xmlTruthy tc.skipped then 4 else 2) ∧
    (statusInfo tc).assertCount =
      (if xmlTruthy tc.failure || xmlTruthy tc.warning || xmlTruthy tc.error ||
          xmlTruthy tc.skipped then JsNum.num 1 else JsNum.num 0) := by
  rcases h1 : truthyNode tc.failure with _ | n1
  · have e1 : xmlTruthy tc.failure = false := by rw [← truthyNode_isSome, h1]; rfl
    rcases h2 : truthyNode tc.warning with _ | n2
    · have e2 : xmlTruthy tc.warning = false := by rw [← truthyNode_isSome, h2]; rfl
      rcases h3 : truthyNode tc.error with _ | n3
      · have e3 : xmlTruthy tc.error = false := by rw [← truthyNode_isSome, h3]; rfl
        rcases h4 : truthyNode tc.skipped with _ | n4
        · have e4 : xmlTruthy tc.skipped = false := by
            rw [← truthyNode_isSome, h4]; rfl
          simp [statusInfo, h1, h2, h3, h4, e1, e2, e3, e4]
        · have e4 : xmlTruthy tc.skipped = true := by
            rw [← truthyNode_isSome, h4]; rfl
          simp [statusInfo, h1, h2, h3, h4, e1, e2, e3, e4]
      · have e3 : xmlTruthy tc.error = true := by rw [← truthyNode_isSome, h3]; rfl
        simp [statusInfo, h1, h2, h3, e1, e2, e3]
    · have e2 : xmlTruthy tc.warning = true := by rw [← truthyNode_isSome, h2]; rfl
      simp [statusInfo, h1, h2, e1, e2]
  · have e1 : xmlTruthy tc.failure = true := by rw [← truthyNode_isSome, h1]; rfl
    simp [statusInfo, h1, e1]

/-! ## C1 — execution-status resolution -/

/-- C1 (amended): for every test case that produces a result, the execution
status is resolved by checking the four child nodes in the fixed order
failure → warning → error → skipped, where a node counts only when it is
truthy (a present but empty, attribute-less element — xml2js value `""` — is
treated like an absent node); the first truthy match gives the status, with
failure=1, warning=6, error=5, skipped=4, and the status defaults to 2 (Pass)
when none of the four is truthy. -/
theorem status_resolution_truthy (fs : FileSys) (cfg : SpiraConfig)
    (tc : TestCase) (suiteName reportFile : String)
    (h : (processTestCase fs cfg tc suiteName reportFile).1.isSome = true) :
    (processTestCase fs cfg tc suiteName reportFile).1.map
        TestResult.execution_status_id =
      some (if xmlTruthy tc.failure then 1 else if xmlTruthy tc.warning then 6
            else if xmlTruthy tc.error then 5 else if xmlTruthy tc.skipped then 4
            else 2) := by
  unfold processTestCase at h ⊢
  by_cases hc : lookupFalsy (cfg.test_case_ids
      (jsToLower (jsOptStr tc.classname ++ "." ++ jsOptStr tc.name))) = true
  · simp [hc] at h
  · simp [hc, (statusInfo_spec tc).1]

/-- A mapped case whose `failure` child is the empty element and whose
`skipped` child has text. -/
def tcFailSkipFix : TestCase :=
  { tcFixBase with failure := some (.str ""), skipped := some (.str "why") }

/-- A mapped case whose only special child is an empty `failure` element. -/
def tcEmptyFailFix : TestCase := { tcFixBase with failure := some (.str "") }

/-- Counterexample to C1 as stated: this case has both a `failure` child and
a `skipped` child, yet resolves to status 4 (N/A), not 1 (Fail) — the code
checks JS truthiness, and the empty `<failure/>` element surfaces as the
falsy `""`, so the skipped branch wins. -/
theorem status_failure_skipped_cex :
    tcFailSkipFix.failure.isSome = true ∧ tcFailSkipFix.skipped.isSome = true ∧
      (processTestCase fsFix cfgFix tcFailSkipFix "s" "dir/report.xml").1.map
          TestResult.execution_status_id = some 4 ∧ (4 : Int) ≠ 1 := by
  refine ⟨rfl, rfl, by decide, by decide⟩

/-- Witness for C1's amended theorem at the same concrete case: the if-chain
on truthiness indeed yields 4 here. -/
theorem status_resolution_truthy_witness :
    (processTestCase fsFix cfgFix tcFailSkipFix "s" "dir/report.xml").1.isSome = true ∧
      (processTestCase fsFix cfgFix tcFailSkipFix "s" "dir/report.xml").1.map
          TestResult.execution_status_id =
        some (if xmlTruthy tcFailSkipFix.failure then 1
              else if xmlTruthy tcFailSkipFix.warning then 6
              else if xmlTruthy tcFailSkipFix.error then 5
              else if xmlTruthy tcFailSkipFix.skipped then 4 else 2) :=
  ⟨by decide,
    status_resolution_truthy fsFix cfgFix tcFailSkipFix "s" "dir/report.xml" (by decide)⟩

/-! ## C6 — assert count -/

/-- C6 (amended): for every test case that produces a result, `assertCount`
is 0 by default, becomes 1 when any of the failure/warning/error/skipped
children is truthy (present and nonempty), and is overridden by
`parseInt(assertions)` when the `assertions` attribute is present with a
nonempty value (a present-but-empty attribute is falsy in JS and does not
override). -/
theorem assertCount_rule (fs : FileSys) (cfg : SpiraConfig) (tc : TestCase)
    (suiteName reportFile : String)
    (h : (processTestCase fs cfg tc suiteName reportFile).1.isSome = true) :
    (processTestCase fs cfg tc suiteName reportFile).1.map
        TestResult.assert_count =
      some (match tc.assertions with
            | some a =>
                if a = "" then
                  (if xmlTruthy tc.failure || xmlTruthy tc.warning ||
                      xmlTruthy tc.error || xmlTruthy tc.skipped then JsNum.num 1
                   else JsNum.num 0)
                else jsParseInt a
            | none =>
                (if xmlTruthy tc.failure || xmlTruthy tc.warning ||
                    xmlTruthy tc.error || xmlTruthy tc.skipped then JsNum.num 1
                 else JsNum.num 0)) := by
  unfold processTestCase at h ⊢
  by_cases hc : lookupFalsy (cfg.test_case_ids
      (jsToLower (jsOptStr tc.classname ++ "." ++ jsOptStr tc.name))) = true
  · simp [hc] at h
  · simp [hc, (statusInfo_spec tc).2]

/-- Counterexample to C6 as stated: a case with a `failure` child present
(the empty element) has assert count 0, not 1 — the default bump happens only
for truthy children. -/
theorem assertCount_empty_failure_cex :
    tcEmptyFailFix.failure.isSome = true ∧ tcEmptyFailFix.assertions = none ∧
      (processTestCase fsFix cfgFix tcEmptyFailFix "s" "dir/report.xml").1.map
          TestResult.assert_count = some (JsNum.num 0) ∧
      JsNum.num 0 ≠ JsNum.num 1 := by
  refine ⟨rfl, rfl, by decide, by decide⟩

/-- A mapped case with a truthy failure child and an assertions attribute. -/
def tcAssertFix : TestCase :=
  { tcFixBase with failure := some (.str "boom"), assertions := some "3" }

/-- Witness for C6's amended theorem: the assertions attribute overrides the
default 1 coming from the truthy failure child. -/
theorem assertCount_rule_witness :
    (processTestCase fsFix cfgFix tcAssertFix "s" "dir/report.xml").1.isSome = true ∧
      (processTestCase fsFix cfgFix tcAssertFix "s" "dir/report.xml").1.map
          TestResult.assert_count =
        some (match tcAssertFix.assertions with
              | some a =>
                  if a = "" then
                    (if xmlTruthy tcAssertFix.failure || xmlTruthy tcAssertFix.warning ||
                        xmlTruthy tcAssertFix.error || xmlTruthy tcAssertFix.skipped then
                      JsNum.num 1
                     else JsNum.num 0)
                  else jsParseInt a
              | none =>
                  (if xmlTruthy tcAssertFix.failure || xmlTruthy tcAssertFix.warning ||
                      xmlTruthy tcAssertFix.error || xmlTruthy tcAssertFix.skipped then
                    JsNum.num 1
                   else JsNum.num 0)) ∧
      jsParseInt "3" = JsNum.num 3 :=
  ⟨by decide,
    assertCount_rule fsFix cfgFix tcAssertFix "s" "dir/report.xml" (by decide),
    by decide⟩

/-! ## C4 — recorded duration -/

/-- C4 (amended): for every test case that produces a result, the recorded
duration equals the JS `parseFloat` of the `time` attribute when that
attribute is present with a nonempty value — which can be negative, and is
NaN (not 0) when the value is unparsable — and defaults to 0 only when the
attribute is absent or empty. -/
theorem duration_parseFloat (fs : FileSys) (cfg : SpiraConfig) (tc : TestCase)
    (suiteName reportFile : String)
    (h : (processTestCase fs cfg tc suiteName reportFile).1.isSome = true) :
    (processTestCase fs cfg tc suiteName reportFile).1.map
        TestResult.duration_seconds =
      some (match tc.time with
            | some t => if t = "" then JsNum.num 0 else jsParseFloat t
            | none => JsNum.num 0) := by
  unfold processTestCase at h ⊢
  by_cases hc : lookupFalsy (cfg.test_case_ids
      (jsToLower (jsOptStr tc.classname ++ "." ++ jsOptStr tc.name))) = true
  · simp [hc] at h
  · simp [hc]

/-- A mapped case with a negative time attribute. -/
def tcNegTimeFix : TestCase := { tcFixBase with time := some "-5" }

/-- A mapped case with an unparsable time attribute. -/
def tcNanTimeFix : TestCase := { tcFixBase with time := some "abc" }

/-- Counterexample to C4 as stated: a time attribute of "-5" yields the
recorded duration −5, which is not ≥ 0; and a present but unparsable time
attribute yields NaN, not the claimed default 0. -/
theorem duration_negative_cex :
    (processTestCase fsFix cfgFix tcNegTimeFix "s" "dir/report.xml").1.map
        TestResult.duration_seconds = some (JsNum.num (-5)) ∧
      ¬ (0 ≤ (-5 : ℚ)) ∧
      (processTestCase fsFix cfgFix tcNanTimeFix "s" "dir/report.xml").1.map
          TestResult.duration_seconds = some JsNum.nan ∧
      JsNum.nan ≠ JsNum.num 0 := by
  refine ⟨by decide, by norm_num, by decide, by decide⟩

/-- A mapped case with an ordinary fractional time attribute. -/
def tcTimeFix : TestCase := { tcFixBase with time := some "2.5" }

/-- Witness for C4's amended theorem: the duration is `parseFloat("2.5")`,
i.e. 5/2 seconds. -/
theorem duration_parseFloat_witness :
    (processTestCase fsFix cfgFix tcTimeFix "s" "dir/report.xml").1.isSome = true ∧
      (processTestCase fsFix cfgFix tcTimeFix "s" "dir/report.xml").1.map
          TestResult.duration_seconds =
        some (match tcTimeFix.time with
              | some t => if t = "" then JsNum.num 0 else jsParseFloat t
              | none => JsNum.num 0) ∧
      jsParseFloat "2.5" = JsNum.num (5 / 2) :=
  ⟨by decide,
    duration_parseFloat fsFix cfgFix tcTimeFix "s" "dir/report.xml" (by decide),
    by decide⟩

/-! ## C10 — details text of a case with no status child -/

/-- The `- name=value` lines contributed by a property list, in order. -/
def concatPropLines : List Property → String
  | [] => ""
  | p :: rest => "- " ++ p.name ++ "=" ++ propValue p ++ "\n" ++ concatPropLines rest

/-- The `System Out:` line contributed by a truthy system-out text. -/
def sysOutPart (tc : TestCase) : String :=
  match tc.system_out with
  | some s => if s = "" then "" else "System Out: " ++ s ++ "\n"
  | none => ""

/-- The `System Err:` line contributed by a truthy system-err text. -/
def sysErrPart (tc : TestCase) : String :=
  match tc.system_err with
  | some s => if s = "" then "" else "System Err: " ++ s ++ "\n"
  | none => ""

/-- The property lines contributed by the properties node. -/
def propsPart (tc : TestCase) : String :=
  match tc.properties with
  | some l => concatPropLines l
  | none => ""

/-- Whether a literal pattern occurs anywhere in a character list. -/
def listHasLit (pat : List Char) : List Char → Bool
  | [] => pat.isEmpty
  | c :: rest => (stripLit pat (c :: rest)).isSome || listHasLit pat rest

/-- The details component of one stream step. -/
theorem addStream_details (fs : FileSys) (rep label : String)
    (txt : Option String) (d : String) :
    (addStream fs rep label txt (DetVal.s d)).1 =
      DetVal.s (d ++ (match txt with
        | some s => if s = "" then "" else label ++ s ++ "\n"
        | none => "")) := by
  rcases txt with _ | s
  · simp [addStream]
  · by_cases h : s = "" <;> simp [addStream, h, DetVal.append, DetVal.render]

/-- The details component of the properties loop: each property appends its
`- name=value` line, in list order. -/
theorem processProps_details (fs : FileSys) (rep : String) (l : List Property)
    (d : String) :
    (processProps fs rep l (DetVal.s d)).details =
      DetVal.s (d ++ concatPropLines l) := by
  induction l generalizing d with
  | nil => simp [processProps, concatPropLines]
  | cons p rest ih =>
    by_cases h1 : strStartsWith p.name "attachment" = true
    · by_cases h2 : strStartsWith (propValue p) "http" = true
      · simp [processProps, h1, h2, DetVal.append, DetVal.render, ih,
          concatPropLines, String.append_assoc]
      · cases hread : readAttachmentFile fs rep (propValue p) with
        | some a =>
          simp [processProps, h1, h2, hread, DetVal.append, DetVal.render, ih,
            concatPropLines, String.append_assoc]
        | none =>
          simp [processProps, h1, h2, hread, DetVal.append, DetVal.render, ih,
            concatPropLines, String.append_assoc]
    · simp [processProps, h1, DetVal.append, DetVal.render, ih, concatPropLines,
        String.append_assoc]

/-- C10 (amended): for every submitted test case none of whose four status
children is present, the details text is exactly the line "Nothing Reported"
followed, in this order, by the `System Out:` line when system-out is present
and nonempty, the `System Err:` line when system-err is present and nonempty,
and one `- name=value` line per property (a present-but-empty stream text is
falsy in JS and contributes no line). -/
theorem details_nothing_reported (fs : FileSys) (cfg : SpiraConfig)
    (tc : TestCase) (suiteName reportFile : String)
    (hf : tc.failure = none) (hw : tc.warning = none) (he : tc.error = none)
    (hs : tc.skipped = none)
    (h : (processTestCase fs cfg tc suiteName reportFile).1.isSome = true) :
    (processTestCase fs cfg tc suiteName reportFile).1.map
        TestResult.stack_trace =
      some (DetVal.s ("Nothing Reported\n" ++ sysOutPart tc ++ sysErrPart tc ++
        propsPart tc)) := by
  have hsi : (statusInfo tc).details = DetVal.s "Nothing Reported\n" := by
    simp [statusInfo, truthyNode, hf, hw, he, hs]
  unfold processTestCase at h ⊢
  by_cases hc : lookupFalsy (cfg.test_case_ids
      (jsToLower (jsOptStr tc.classname ++ "." ++ jsOptStr tc.name))) = true
  · simp [hc] at h
  · rcases hp : tc.properties with _ | props
    · simp [hc, hp, hsi, addStream_details, sysOutPart, sysErrPart, propsPart,
        String.append_empty]
    · simp [hc, hp, hsi, addStream_details, processProps_details, sysOutPart,
        sysErrPart, propsPart]

/-- A mapped case with an empty system-out, a nonempty system-err and one
property. -/
def tcC10Fix : TestCase :=
  { tcFixBase with
      system_out := some "", system_err := some "x",
      properties := some [{ name := "n", value := some "v", text := none }] }

/-- Counterexample to C10 as stated: system-out is present, yet no
`System Out:` line occurs anywhere in the details text — the code appends the
line only for a truthy (nonempty) system-out. -/
theorem details_systemOut_empty_cex :
    tcC10Fix.system_out = some "" ∧
      (processTestCase fsFix cfgFix tcC10Fix "s" "dir/report.xml").1.map
          TestResult.stack_trace =
        some (DetVal.s "Nothing Reported\nSystem Err: x\n- n=v\n") ∧
      listHasLit "System Out: ".toList
        "Nothing Reported\nSystem Err: x\n- n=v\n".toList = false := by
  refine ⟨rfl, by decide, by decide⟩

/-- A mapped case with nonempty streams and one property. -/
def tcC10WFix : TestCase :=
  { tcFixBase with
      system_out := some "o", system_err := some "e",
      properties := some [{ name := "n", value := some "v", text := none }] }

/-- Witness for C10's amended theorem at a concrete case with all three
sources present and nonempty. -/
theorem details_nothing_reported_witness :
    (processTestCase fsFix cfgFix tcC10WFix "s" "dir/report.xml").1.isSome = true ∧
      (processTestCase fsFix cfgFix tcC10WFix "s" "dir/report.xml").1.map
          TestResult.stack_trace =
        some (DetVal.s ("Nothing Reported\n" ++ sysOutPart tcC10WFix ++
          sysErrPart tcC10WFix ++ propsPart tcC10WFix)) ∧
      "Nothing Reported\n" ++ sysOutPart tcC10WFix ++ sysErrPart tcC10WFix ++
          propsPart tcC10WFix =
        "Nothing Reported\nSystem Out: o\nSystem Err: e\n- n=v\n" :=
  ⟨by decide,
    details_nothing_reported fsFix cfgFix tcC10WFix "s" "dir/report.xml"
      rfl rfl rfl rfl (by decide),
    by decide⟩

/-! ## C3 — attachment properties: links, files, unreadable files -/

/-- An attachment-named property whose value starts with "http" contributes
its link, whatever the rest of the list does. -/
theorem processProps_link_mem (fs : FileSys) (rep : String) (l : List Property)
    (d : DetVal) (p : Property) (hp : p ∈ l)
    (hn : strStartsWith p.name "attachment" = true)
    (hh : strStartsWith (propValue p) "http" = true) :
    Link.mk (propValue p) ∈ (processProps fs rep l d).links := by
  induction l generalizing d with
  | nil => cases hp
  | cons q rest ih =>
    rcases List.mem_cons.mp hp with rfl | hmem
    · simp [processProps, hn, hh]
    · by_cases h1 : strStartsWith q.name "attachment" = true
      · by_cases h2 : strStartsWith (propValue q) "http" = true
        · simp only [processProps, h1, h2, if_true, if_pos]
          exact List.mem_cons_of_mem _ (ih _ hmem)
        · cases hread : readAttachmentFile fs rep (propValue q) with
          | some a => simp [processProps, h1, h2, hread]; exact ih _ hmem
          | none => simp [processProps, h1, h2, hread]; exact ih _ hmem
      · simp [processProps, h1]; exact ih _ hmem

/-- An attachment-named property whose value is a readable relative path
contributes its base64-encoded file attachment. -/
theorem processProps_attach_mem (fs : FileSys) (rep : String) (l : List Property)
    (d : DetVal) (p : Property) (a : Attachment) (hp : p ∈ l)
    (hn : strStartsWith p.name "attachment" = true)
    (hh : strStartsWith (propValue p) "http" = false)
    (hread : readAttachmentFile fs rep (propValue p) = some a) :
    a ∈ (processProps fs rep l d).attachments := by
  induction l generalizing d with
  | nil => cases hp
  | cons q rest ih =>
    rcases List.mem_cons.mp hp with rfl | hmem
    · simp [processProps, hn, hh, hread]
    · by_cases h1 : strStartsWith q.name "attachment" = true
      · by_cases h2 : strStartsWith (propValue q) "http" = true
        · simp [processProps, h1, h2]; exact ih _ hmem
        · cases hreadq : readAttachmentFile fs rep (propValue q) with
          | some b =>
            simp only [processProps, h1, h2, hreadq, if_pos, if_neg]
            exact List.mem_cons_of_mem _ (ih _ hmem)
          | none => simp [processProps, h1, h2, hreadq]; exact ih _ hmem
      · simp [processProps, h1]; exact ih _ hmem

/-- An attachment-named property whose value is an unreadable path
contributes its failure log line. -/
theorem processProps_log_mem (fs : FileSys) (rep : String) (l : List Property)
    (d : DetVal) (p : Property) (hp : p ∈ l)
    (hn : strStartsWith p.name "attachment" = true)
    (hh : strStartsWith (propValue p) "http" = false)
    (hread : readAttachmentFile fs rep (propValue p) = none) :
    readFailLog (propValue p) ∈ (processProps fs rep l d).logs := by
  induction l generalizing d with
  | nil => cases hp
  | cons q rest ih =>
    rcases List.mem_cons.mp hp with rfl | hmem
    · simp [processProps, hn, hh, hread]
    · by_cases h1 : strStartsWith q.name "attachment" = true
      · by_cases h2 : strStartsWith (propValue q) "http" = true
        · simp [processProps, h1, h2]; exact ih _ hmem
        · cases hreadq : readAttachmentFile fs rep (propValue q) with
          | some b => simp [processProps, h1, h2, hreadq]; exact ih _ hmem
          | none =>
            simp only [processProps, h1, h2, hreadq, if_pos, if_neg]
            exact List.mem_cons_of_mem _ (ih _ hmem)
      · simp [processProps, h1]; exact ih _ hmem

/-- C3: for every test case with a mapped id, a property whose name starts
with "attachment" produces a link entry `{url}` when its value starts with
"http"; otherwise, when the file at the value's path relative to the report
file's directory is readable, it produces that file as a base64-encoded
attachment; and when the file is unreadable the attachment is dropped with a
log line while the case is still submitted. -/
theorem attachment_property_dispatch (fs : FileSys) (cfg : SpiraConfig)
    (tc : TestCase) (suiteName reportFile : String) (props : List Property)
    (p : Property) (hprops : tc.properties = some props) (hp : p ∈ props)
    (hn : strStartsWith p.name "attachment" = true)
    (hid : lookupFalsy (cfg.test_case_ids
      (jsToLower (jsOptStr tc.classname ++ "." ++ jsOptStr tc.name))) = false) :
    ∃ r, (processTestCase fs cfg tc suiteName reportFile).1 = some r ∧
      (strStartsWith (propValue p) "http" = true →
        Link.mk (propValue p) ∈ r.links) ∧
      (∀ bytes, strStartsWith (propValue p) "http" = false →
        fs (joinPath (dirname reportFile) (propValue p)) = some bytes →
        Attachment.mk (propValue p) (base64Encode bytes) ∈ r.attachments) ∧
      (strStartsWith (propValue p) "http" = false →
        fs (joinPath (dirname reportFile) (propValue p)) = none →
        readFailLog (propValue p) ∈
          (processTestCase fs cfg tc suiteName reportFile).2) := by
  unfold processTestCase
  simp only [hid, Bool.false_eq_true, if_false, hprops]
  refine ⟨_, rfl, ?_, ?_, ?_⟩
  · intro hh
    exact processProps_link_mem fs reportFile props _ p hp hn hh
  · intro bytes hh hfs
    have hread : readAttachmentFile fs reportFile (propValue p) =
        some ⟨propValue p, base64Encode bytes⟩ := by
      simp [readAttachmentFile, hfs]
    exact List.mem_append_right _
      (processProps_attach_mem fs reportFile props _ p _ hp hn hh hread)
  · intro hh hfs
    have hread : readAttachmentFile fs reportFile (propValue p) = none := by
      simp [readAttachmentFile, hfs]
    exact List.mem_append_right _
      (processProps_log_mem fs reportFile props _ p hp hn hh hread)

/-- Property fixtures: an http link, a readable file, an unreadable file. -/
def pLinkFix : Property :=
  { name := "attachment_1", value := some "http://example.com/x", text := none }

/-- Readable-path property. -/
def pFileFix : Property :=
  { name := "attachment_2", value := some "out/log.txt", text := none }

/-- Unreadable-path property. -/
def pMissFix : Property :=
  { name := "attachment_3", value := some "missing.png", text := none }

/-- A mapped case carrying the three attachment properties. -/
def tcPropsFix : TestCase :=
  { tcFixBase with properties := some [pLinkFix, pFileFix, pMissFix] }

/-- Witness for C3: the three dispatch behaviors at one concrete case — the
http value becomes a link, the readable path becomes a base64 attachment,
the unreadable path is logged. -/
theorem attachment_property_dispatch_witness :
    (∃ r, (processTestCase fsFix cfgFix tcPropsFix "s" "dir/report.xml").1 = some r ∧
      (strStartsWith (propValue pLinkFix) "http" = true →
        Link.mk (propValue pLinkFix) ∈ r.links) ∧
      (∀ bytes, strStartsWith (propValue pLinkFix) "http" = false →
        fsFix (joinPath (dirname "dir/report.xml") (propValue pLinkFix)) = some bytes →
        Attachment.mk (propValue pLinkFix) (base64Encode bytes) ∈ r.attachments) ∧
      (strStartsWith (propValue pLinkFix) "http" = false →
        fsFix (joinPath (dirname "dir/report.xml") (propValue pLinkFix)) = none →
        readFailLog (propValue pLinkFix) ∈
          (processTestCase fsFix cfgFix tcPropsFix "s" "dir/report.xml").2)) ∧
    (∃ r, (processTestCase fsFix cfgFix tcPropsFix "s" "dir/report.xml").1 = some r ∧
      (strStartsWith (propValue pFileFix) "http" = true →
        Link.mk (propValue pFileFix) ∈ r.links) ∧
      (∀ bytes, strStartsWith (propValue pFileFix) "http" = false →
        fsFix (joinPath (dirname "dir/report.xml") (propValue pFileFix)) = some bytes →
        Attachment.mk (propValue pFileFix) (base64Encode bytes) ∈ r.attachments) ∧
      (strStartsWith (propValue pFileFix) "http" = false →
        fsFix (joinPath (dirname "dir/report.xml") (propValue pFileFix)) = none →
        readFailLog (propValue pFileFix) ∈
          (processTestCase fsFix cfgFix tcPropsFix "s" "dir/report.xml").2)) ∧
    (∃ r, (processTestCase fsFix cfgFix tcPropsFix "s" "dir/report.xml").1 = some r ∧
      (strStartsWith (propValue pMissFix) "http" = true →
        Link.mk (propValue pMissFix) ∈ r.links) ∧
      (∀ bytes, strStartsWith (propValue pMissFix) "http" = false →
        fsFix (joinPath (dirname "dir/report.xml") (propValue pMissFix)) = some bytes →
        Attachment.mk (propValue pMissFix) (base64Encode bytes) ∈ r.attachments) ∧
      (strStartsWith (propValue pMissFix) "http" = false →
        fsFix (joinPath (dirname "dir/report.xml") (propValue pMissFix)) = none →
        readFailLog (propValue pMissFix) ∈
          (processTestCase fsFix cfgFix tcPropsFix "s" "dir/report.xml").2)) :=
  ⟨attachment_property_dispatch fsFix cfgFix tcPropsFix "s" "dir/report.xml"
      [pLinkFix, pFileFix, pMissFix] pLinkFix rfl (by decide) (by decide) (by decide),
    attachment_property_dispatch fsFix cfgFix tcPropsFix "s" "dir/report.xml"
      [pLinkFix, pFileFix, pMissFix] pFileFix rfl (by decide) (by decide) (by decide),
    attachment_property_dispatch fsFix cfgFix tcPropsFix "s" "dir/report.xml"
      [pLinkFix, pFileFix, pMissFix] pMissFix rfl (by decide) (by decide) (by decide)⟩

/-! ## C5 — threading of the build id and the optional body fields -/

/-- The optional fields of a constructed test-run body: `ReleaseId` present
iff the release id is not −1; `BuildId` present iff additionally the threaded
build value is not the number −1 (null counts as present!); `TestSetId` never
carries −1. -/
theorem body_fields (tr : SpiraTestRun) :
    tr.body.releaseId =
      (if tr.releaseId = JsNum.num (-1) then none else some tr.releaseId) ∧
    tr.body.buildId =
      (if tr.releaseId ≠ JsNum.num (-1) ∧ neNegOne tr.buildId = true then
        some tr.buildId else none) ∧
    tr.body.testSetId ≠ some (JsNum.num (-1)) := by
  refine ⟨rfl, ?_, ?_⟩
  · by_cases h1 : tr.releaseId = JsNum.num (-1)
    · simp [SpiraTestRun.body, h1]
    · by_cases h2 : neNegOne tr.buildId = true <;> simp [SpiraTestRun.body, h1, h2]
  · by_cases h : tr.testSetId = JsNum.num (-1)
    · simp [SpiraTestRun.body, h]
    · simp [SpiraTestRun.body, h]

/-- A document-creation call is never a test-run call. -/
theorem mkDocCall_ne_testRun (pid : JsNum) (t : Int) (rid : ℤ) (f v : String)
    (bd : Option String) (b : TestRunBody) :
    mkDocCall pid t rid f v bd ≠ HttpCall.createTestRun b := by
  unfold mkDocCall
  by_cases h : (t == 1 && strTruthy bd) = true <;> simp [h]

/-- Any test-run call in one record's submission is the body built from the
config, the record, the clock sample and the threaded build value. -/
theorem sendResult_calls_testRun (cfg : SpiraConfig) (r : TestResult)
    (nowMs : ℚ) (resp : Option ℤ) (bid : Option ℤ) (b : TestRunBody)
    (hb : HttpCall.createTestRun b ∈ (sendResult cfg r nowMs resp bid).1) :
    ∃ q, r.duration_seconds = JsNum.num q ∧
      b = SpiraTestRun.body
        { projectId := cfg.project_id
          testCaseId := r.test_case_id
          testName := r.name
          stackTrace := r.stack_trace
          statusId := r.execution_status_id
          startMs := nowMs - q * 1000
          endMs := nowMs
          message := r.message
          releaseId := cfg.release_id
          testSetId := if r.test_set_id.gtZero then r.test_set_id else cfg.test_set_id
          assertCount := r.assert_count
          buildId := bid } := by
  unfold sendResult at hb
  cases hd : r.duration_seconds with
  | nan => rw [hd] at hb; simp at hb
  | num q =>
    rw [hd] at hb
    simp only [List.mem_cons] at hb
    rcases hb with heq | hdoc
    · exact ⟨q, rfl, by injection heq⟩
    · exfalso
      by_cases he : (resp.getD (-1)) < 1
      · simp [he] at hdoc
      · simp only [he, if_neg, if_false] at hdoc
        rcases List.mem_append.mp hdoc with hm | hm <;>
          · rcases List.mem_map.mp hm with ⟨x, _, hx⟩
            exact mkDocCall_ne_testRun _ _ _ _ _ _ _ hx

/-- Lifting through the per-record loop: every test-run body in the loop's
trace satisfies the optional-field characterization with the threaded build
value `bid`. -/
theorem sendLoop_body_fields (cfg : SpiraConfig) (env : Env) (bid : Option ℤ)
    (l : List TestResult) :
    ∀ (i : ℕ) (b : TestRunBody),
      HttpCall.createTestRun b ∈ (sendLoop cfg env bid i l).1 →
      b.releaseId =
        (if cfg.release_id = JsNum.num (-1) then none else some cfg.release_id) ∧
      b.buildId =
        (if cfg.release_id ≠ JsNum.num (-1) ∧ neNegOne bid = true then
          some bid else none) ∧
      b.testSetId ≠ some (JsNum.num (-1)) := by
  induction l with
  | nil => intro i b hb; simp [sendLoop] at hb
  | cons r rest ih =>
    intro i b hb
    simp only [sendLoop] at hb
    rcases List.mem_append.mp hb with h1 | h2
    · obtain ⟨q, _, rfl⟩ :=
        sendResult_calls_testRun cfg r (env.recordNowMs i) (env.runResp i) bid b h1
      exact body_fields _
    · exact ih (i + 1) b h2

/-- C5 (amended): when build creation is enabled, the value returned by the
create-build call — which is null, not −1, when the call fails — is threaded
into every subsequent test-run request; each test-run body includes
`ReleaseId` iff the configured release id is not −1, includes `BuildId` iff
additionally the threaded value is not the number −1 (so the null of a failed
build creation is included as `BuildId: null`), and never carries a
`TestSetId` equal to −1. -/
theorem testRunBody_optional_fields (cfg : SpiraConfig)
    (results : List TestResult) (suites : SuitesRoot) (env : Env)
    (hcb : cfg.create_build = true) (b : TestRunBody)
    (hb : HttpCall.createTestRun b ∈ (sendResults cfg results suites env).1) :
    b.releaseId =
      (if cfg.release_id = JsNum.num (-1) then none else some cfg.release_id) ∧
    b.buildId =
      (if cfg.release_id ≠ JsNum.num (-1) ∧ neNegOne env.buildResp = true then
        some env.buildResp else none) ∧
    b.testSetId ≠ some (JsNum.num (-1)) := by
  by_cases hurl : cfg.url = ""
  · simp [sendResults, hurl] at hb
  · unfold sendResults at hb
    simp only [hurl, if_neg, if_false, hcb, if_true, List.singleton_append,
      List.mem_cons] at hb
    rcases hb with heq | hmem
    · exact absurd heq (by simp)
    · exact sendLoop_body_fields cfg env env.buildResp results 0 b hmem

/-- Counterexample to C5 as stated: with build creation enabled and a failing
create-build call, the test-run body contains a `BuildId` field whose value
is null — the threaded value is null, not −1, and since `null !== -1` the
field is not suppressed (the claim's threaded −1 would have suppressed it). -/
theorem buildId_null_threaded_cex :
    envFix.buildResp = none ∧
      ((sendResults cfgFixB [rFix] suitesFix envFix).1.filterMap fun c =>
        match c with
        | HttpCall.createTestRun b => some b.buildId
        | _ => none) = [some none] ∧
      some (none : Option ℤ) ≠ none :=
  ⟨rfl, by decide, by decide⟩

/-- The test run constructed for `rFix` in the fixture scenario. -/
def trWFix : SpiraTestRun :=
  { projectId := cfgFixB.project_id
    testCaseId := rFix.test_case_id
    testName := rFix.name
    stackTrace := rFix.stack_trace
    statusId := rFix.execution_status_id
    startMs := envFix.recordNowMs 0 - 0 * 1000
    endMs := envFix.recordNowMs 0
    message := rFix.message
    releaseId := cfgFixB.release_id
    testSetId := cfgFixB.test_set_id
    assertCount := rFix.assert_count
    buildId := none }

/-- Witness for C5's amended theorem: at the fixture scenario, the body's
`ReleaseId` is present (release 5), `BuildId` is present with value null, and
`TestSetId` does not carry −1 (it is absent). -/
theorem testRunBody_optional_fields_witness :
    cfgFixB.create_build = true ∧
      HttpCall.createTestRun trWFix.body ∈
        (sendResults cfgFixB [rFix] suitesFix envFix).1 ∧
      (trWFix.body.releaseId =
          (if cfgFixB.release_id = JsNum.num (-1) then none
           else some cfgFixB.release_id) ∧
        trWFix.body.buildId =
          (if cfgFixB.release_id ≠ JsNum.num (-1) ∧ neNegOne envFix.buildResp = true then
            some envFix.buildResp else none) ∧
        trWFix.body.testSetId ≠ some (JsNum.num (-1))) :=
  ⟨rfl, by decide,
    testRunBody_optional_fields cfgFixB [rFix] suitesFix envFix rfl
      trWFix.body (by decide)⟩

end RatEval

end SpiraXunit
